import Mathlib

/-!
Shallow embedding of the alazar pseudo-random number generator crate.

Machine integers are modelled as Nat, reduced modulo 2 to the word width
at every operation where the Rust code truncates (left shifts and
wrapping arithmetic; in release builds the plain addition operator also
wraps).  A mutating method taking a mutable reference and returning a
value becomes a function returning the pair (output, new generator).
Each internal debug assertion of the source is modelled separately as a
Bool-valued condition named with the suffix assert: in a build with
debug assertions enabled, the corresponding call panics exactly when
that condition is false; release builds skip the check.
-/

/-! ## Little-endian width-composition helpers

The crate delegates these to the external devela crate, which is not
part of this repository; they are modelled from the spec. -/

/-- Modelled from the spec: the external devela function u16_from_u8_le,
missing from this repository, which joins 2 bytes in little-endian order
(least-significant sub-word first). -/
def u16_from_u8_le (a b : Nat) : Nat := a + (b <<< 8)

/-- Modelled from the spec: the external devela function u32_from_u16_le,
missing from this repository; little-endian composition. -/
def u32_from_u16_le (a b : Nat) : Nat := a + (b <<< 16)

/-- Modelled from the spec: the external devela function u32_from_u8_le,
missing from this repository; little-endian composition. -/
def u32_from_u8_le (a b c d : Nat) : Nat := a + (b <<< 8) + (c <<< 16) + (d <<< 24)

/-- Modelled from the spec: the external devela function u64_from_u32_le,
missing from this repository; little-endian composition. -/
def u64_from_u32_le (a b : Nat) : Nat := a + (b <<< 32)

/-- Modelled from the spec: the external devela function u64_from_u16_le,
missing from this repository; little-endian composition. -/
def u64_from_u16_le (a b c d : Nat) : Nat := a + (b <<< 16) + (c <<< 32) + (d <<< 48)

/-- Modelled from the spec: the external devela function u64_from_u8_le,
missing from this repository; little-endian composition. -/
def u64_from_u8_le (a b c d e f g h : Nat) : Nat :=
  a + (b <<< 8) + (c <<< 16) + (d <<< 24) + (e <<< 32) + (f <<< 40) + (g <<< 48) + (h <<< 56)

/-- Modelled from the spec: the external devela function u64_into_u32_le,
missing from this repository, which splits a 64-bit value into 2
little-endian 32-bit words. -/
def u64_into_u32_le (x : Nat) : Nat × Nat := (x % 2 ^ 32, (x >>> 32) % 2 ^ 32)

/-- Modelled from the spec: the external devela function u128_into_u64_le,
missing from this repository, which splits a 128-bit value into 2
little-endian 64-bit words. -/
def u128_into_u64_le (x : Nat) : Nat × Nat := (x % 2 ^ 64, (x >>> 64) % 2 ^ 64)

/-- Rust u64 rotate_left semantics for a value below 2 to the 64. -/
def rotateLeft64 (x n : Nat) : Nat :=
  ((x <<< (n % 64)) % 2 ^ 64) ||| (x >>> (64 - n % 64))

/-! ## XorShift8 (src/xorshift/u8.rs) -/

structure XorShift8 where
  state : Nat
  deriving DecidableEq

def XorShift8.new (seed : Nat) : Option XorShift8 :=
  if seed = 0 then none else some ⟨seed⟩

def XorShift8.new_unchecked (seed : Nat) : XorShift8 := ⟨seed⟩

/-- The condition of the internal debug assertion in the source of
XorShift8 new_unchecked: the source asserts seed == 0 with the message
Seed must be non-zero, so a debug build panics exactly when the seed is
non-zero. -/
def XorShift8.new_unchecked_assert (seed : Nat) : Bool := seed == 0

def XorShift8.default : XorShift8 := XorShift8.new_unchecked 0xDE

/-- Condition of the debug assertion triggered by the default
constructor of XorShift8, which calls new_unchecked with seed 0xDE. -/
def XorShift8.default_assert : Bool := XorShift8.new_unchecked_assert 0xDE

def XorShift8.current_u8 (g : XorShift8) : Nat := g.state

def XorShift8.next_u8 (g : XorShift8) : Nat × XorShift8 :=
  let x0 := g.state
  let x1 := x0 ^^^ ((x0 <<< 3) % 2 ^ 8)
  let x2 := x1 ^^^ (x1 >>> 4)
  let x3 := x2 ^^^ ((x2 <<< 2) % 2 ^ 8)
  (x3, ⟨x3⟩)

def XorShift8.next_new (g : XorShift8) : XorShift8 :=
  let x0 := g.state
  let x1 := x0 ^^^ ((x0 <<< 3) % 2 ^ 8)
  let x2 := x1 ^^^ (x1 >>> 4)
  let x3 := x2 ^^^ ((x2 <<< 2) % 2 ^ 8)
  ⟨x3⟩

/-! ## XorShift8Custom (src/xorshift/u8.rs)

The three shift amounts are const-generic parameters in the source and
become the three leading Nat arguments here. -/

structure XorShift8Custom where
  state : Nat
  deriving DecidableEq

def XorShift8Custom.new (sh1 sh2 sh3 seed : Nat) : Option XorShift8Custom :=
  if seed = 0 then none else some ⟨seed⟩

/-- Condition of the debug assertions in XorShift8Custom new: the source
checks the three shift ranges, with sh1 repeated in all three upper
bounds (a slip kept faithfully here). -/
def XorShift8Custom.new_assert (sh1 sh2 sh3 : Nat) : Bool :=
  (decide (0 < sh1) && decide (sh1 ≤ 7)) &&
  (decide (0 < sh2) && decide (sh1 ≤ 7)) &&
  (decide (0 < sh3) && decide (sh1 ≤ 7))

def XorShift8Custom.new_unchecked (sh1 sh2 sh3 seed : Nat) : XorShift8Custom := ⟨seed⟩

/-- Condition of the debug assertions in XorShift8Custom new_unchecked:
shift ranges (with the repeated sh1 slip of the source) and the seed
check, which the source writes as seed == 0 under the message Seed must
be non-zero. -/
def XorShift8Custom.new_unchecked_assert (sh1 sh2 sh3 seed : Nat) : Bool :=
  (decide (0 < sh1) && decide (sh1 ≤ 7)) &&
  (decide (0 < sh2) && decide (sh1 ≤ 7)) &&
  (decide (0 < sh3) && decide (sh1 ≤ 7)) && (seed == 0)

def XorShift8Custom.default : XorShift8Custom := XorShift8Custom.new_unchecked 3 4 2 0xDE

/-- Condition of the debug assertion triggered by the default
constructor of XorShift8Custom (default shifts 3 4 2, seed 0xDE). -/
def XorShift8Custom.default_assert : Bool := XorShift8Custom.new_unchecked_assert 3 4 2 0xDE

def XorShift8Custom.next_u8 (sh1 sh2 sh3 : Nat) (g : XorShift8Custom) : Nat × XorShift8Custom :=
  let x0 := g.state
  let x1 := x0 ^^^ ((x0 <<< sh1) % 2 ^ 8)
  let x2 := x1 ^^^ (x1 >>> sh2)
  let x3 := x2 ^^^ ((x2 <<< sh3) % 2 ^ 8)
  (x3, ⟨x3⟩)

def XorShift8Custom.next_new (sh1 sh2 sh3 : Nat) (g : XorShift8Custom) : XorShift8Custom :=
  let x0 := g.state
  let x1 := x0 ^^^ ((x0 <<< sh1) % 2 ^ 8)
  let x2 := x1 ^^^ (x1 >>> sh2)
  let x3 := x2 ^^^ ((x2 <<< sh3) % 2 ^ 8)
  ⟨x3⟩

/-! ## XorShift16 (src/xorshift/u16.rs) -/

structure XorShift16 where
  state : Nat
  deriving DecidableEq

def XorShift16.DEFAULT_SEED : Nat := 0xDEFA

def XorShift16.new (seed : Nat) : Option XorShift16 :=
  if seed = 0 then none else some ⟨seed⟩

def XorShift16.new_unchecked (seed : Nat) : XorShift16 := ⟨seed⟩

/-- Condition of the debug assertion in XorShift16 new_unchecked: this
one correctly asserts that the seed differs from zero. -/
def XorShift16.new_unchecked_assert (seed : Nat) : Bool := seed != 0

def XorShift16.default : XorShift16 := XorShift16.new_unchecked XorShift16.DEFAULT_SEED

/-- Condition of the debug assertion triggered by the default
constructor of XorShift16. -/
def XorShift16.default_assert : Bool := XorShift16.new_unchecked_assert XorShift16.DEFAULT_SEED

def XorShift16.next_u16 (g : XorShift16) : Nat × XorShift16 :=
  let x0 := g.state
  let x1 := x0 ^^^ ((x0 <<< 7) % 2 ^ 16)
  let x2 := x1 ^^^ (x1 >>> 9)
  let x3 := x2 ^^^ ((x2 <<< 8) % 2 ^ 16)
  (x3, ⟨x3⟩)

def XorShift16.next_new (g : XorShift16) : XorShift16 :=
  let x0 := g.state
  let x1 := x0 ^^^ ((x0 <<< 7) % 2 ^ 16)
  let x2 := x1 ^^^ (x1 >>> 9)
  let x3 := x2 ^^^ ((x2 <<< 8) % 2 ^ 16)
  ⟨x3⟩

def XorShift16.new2_u8 (a b : Nat) : Option XorShift16 :=
  XorShift16.new (u16_from_u8_le a b)

/-! ## XorShift32 (src/xorshift/u32.rs) -/

structure XorShift32 where
  state : Nat
  deriving DecidableEq

def XorShift32.new (seed : Nat) : Option XorShift32 :=
  if seed = 0 then none else some ⟨seed⟩

def XorShift32.new_unchecked (seed : Nat) : XorShift32 := ⟨seed⟩

/-- Condition of the debug assertion in XorShift32 new_unchecked: the
source asserts seed == 0 under the message Seed must be non-zero, so a
debug build panics exactly when the seed is non-zero. -/
def XorShift32.new_unchecked_assert (seed : Nat) : Bool := seed == 0

def XorShift32.default : XorShift32 := XorShift32.new_unchecked 0xDEFA0017

/-- Condition of the debug assertion triggered by the default
constructor of XorShift32, which calls new_unchecked with 0xDEFA0017. -/
def XorShift32.default_assert : Bool := XorShift32.new_unchecked_assert 0xDEFA0017

def XorShift32.next_u32 (g : XorShift32) : Nat × XorShift32 :=
  let x0 := g.state
  let x1 := x0 ^^^ ((x0 <<< 13) % 2 ^ 32)
  let x2 := x1 ^^^ (x1 >>> 17)
  let x3 := x2 ^^^ ((x2 <<< 5) % 2 ^ 32)
  (x3, ⟨x3⟩)

def XorShift32.next_new (g : XorShift32) : XorShift32 :=
  let x0 := g.state
  let x1 := x0 ^^^ ((x0 <<< 13) % 2 ^ 32)
  let x2 := x1 ^^^ (x1 >>> 17)
  let x3 := x2 ^^^ ((x2 <<< 5) % 2 ^ 32)
  ⟨x3⟩

def XorShift32.new2_16 (a b : Nat) : Option XorShift32 :=
  XorShift32.new (u32_from_u16_le a b)

def XorShift32.new4_8 (a b c d : Nat) : Option XorShift32 :=
  XorShift32.new (u32_from_u8_le a b c d)

/-! ## XorShift64 (src/xorshift/u64.rs) -/

structure XorShift64 where
  state : Nat
  deriving DecidableEq

def XorShift64.DEFAULT_SEED : Nat := 0xDEFA0017DEFA0017

def XorShift64.new (seed : Nat) : Option XorShift64 :=
  if seed = 0 then none else some ⟨seed⟩

def XorShift64.new_unchecked (seed : Nat) : XorShift64 := ⟨seed⟩

/-- Condition of the debug assertion in XorShift64 new_unchecked: this
one correctly asserts that the seed differs from zero. -/
def XorShift64.new_unchecked_assert (seed : Nat) : Bool := seed != 0

def XorShift64.default : XorShift64 := XorShift64.new_unchecked XorShift64.DEFAULT_SEED

/-- Condition of the debug assertion triggered by the default
constructor of XorShift64. -/
def XorShift64.default_assert : Bool := XorShift64.new_unchecked_assert XorShift64.DEFAULT_SEED

def XorShift64.next_u64 (g : XorShift64) : Nat × XorShift64 :=
  let x0 := g.state
  let x1 := x0 ^^^ ((x0 <<< 13) % 2 ^ 64)
  let x2 := x1 ^^^ (x1 >>> 7)
  let x3 := x2 ^^^ ((x2 <<< 17) % 2 ^ 64)
  (x3, ⟨x3⟩)

def XorShift64.next_new (g : XorShift64) : XorShift64 :=
  let x0 := g.state
  let x1 := x0 ^^^ ((x0 <<< 13) % 2 ^ 64)
  let x2 := x1 ^^^ (x1 >>> 7)
  let x3 := x2 ^^^ ((x2 <<< 17) % 2 ^ 64)
  ⟨x3⟩

def XorShift64.new2_u32 (a b : Nat) : Option XorShift64 :=
  XorShift64.new (u64_from_u32_le a b)

def XorShift64.new4_u16 (a b c d : Nat) : Option XorShift64 :=
  XorShift64.new (u64_from_u16_le a b c d)

def XorShift64.new8_u8 (a b c d e f g h : Nat) : Option XorShift64 :=
  XorShift64.new (u64_from_u8_le a b c d e f g h)

/-! ## XorShift128 (src/xorshift/u128.rs), 4 32-bit words -/

structure XorShift128 where
  s0 : Nat
  s1 : Nat
  s2 : Nat
  s3 : Nat
  deriving DecidableEq

def XorShift128.new (a b c d : Nat) : Option XorShift128 :=
  if (a ||| b ||| c ||| d) ≠ 0 then some ⟨a, b, c, d⟩ else none

def XorShift128.current_u64 (g : XorShift128) : Nat :=
  ((g.s0 <<< 32) % 2 ^ 64) ||| g.s1

def XorShift128.next_u64 (g : XorShift128) : Nat × XorShift128 :=
  let t := g.s3
  let s := g.s0
  let sa := s ^^^ ((s <<< 11) % 2 ^ 32)
  let sb := sa ^^^ (sa >>> 8)
  let n0 := sb ^^^ t ^^^ (t >>> 19)
  (((n0 <<< 32) % 2 ^ 64) ||| s, ⟨n0, s, g.s1, g.s2⟩)

def XorShift128.next_new (g : XorShift128) : XorShift128 :=
  let t := g.s3
  let s := g.s0
  let sa := s ^^^ ((s <<< 11) % 2 ^ 32)
  let sb := sa ^^^ (sa >>> 8)
  let n0 := sb ^^^ t ^^^ (t >>> 19)
  ⟨n0, s, g.s1, g.s2⟩

def XorShift128.new2_64 (a b : Nat) : Option XorShift128 :=
  let (x, y) := u64_into_u32_le a
  let (z, w) := u64_into_u32_le b
  XorShift128.new x y z w

def XorShift128.new4_32 (a b c d : Nat) : Option XorShift128 :=
  XorShift128.new a b c d

def XorShift128.new8_16 (a b c d e f g h : Nat) : Option XorShift128 :=
  XorShift128.new (u32_from_u16_le a b) (u32_from_u16_le c d)
    (u32_from_u16_le e f) (u32_from_u16_le g h)

def XorShift128.new16_8 (a0 a1 a2 a3 a4 a5 a6 a7 a8 a9 a10 a11 a12 a13 a14 a15 : Nat) :
    Option XorShift128 :=
  XorShift128.new (u32_from_u8_le a0 a1 a2 a3) (u32_from_u8_le a4 a5 a6 a7)
    (u32_from_u8_le a8 a9 a10 a11) (u32_from_u8_le a12 a13 a14 a15)

/-! ## XorShift128p (src/xorshift/u128.rs), 2 64-bit words

The plain addition in the source wraps modulo 2 to the 64 in release
builds; that wrapping is written out explicitly here. -/

structure XorShift128p where
  s0 : Nat
  s1 : Nat
  deriving DecidableEq

def XorShift128p.new (a b : Nat) : Option XorShift128p :=
  if (a ||| b) ≠ 0 then some ⟨a, b⟩ else none

def XorShift128p.current_u64 (g : XorShift128p) : Nat := (g.s0 + g.s1) % 2 ^ 64

def XorShift128p.next_64 (g : XorShift128p) : Nat × XorShift128p :=
  let s1 := g.s0
  let s0 := g.s1
  let result := (s0 + s1) % 2 ^ 64
  let s1x := s1 ^^^ s0
  (result, ⟨rotateLeft64 s0 24 ^^^ s1x ^^^ ((s1x <<< 16) % 2 ^ 64), rotateLeft64 s1x 37⟩)

def XorShift128p.next_new (g : XorShift128p) : XorShift128p :=
  let s1 := g.s0
  let s0 := g.s1
  let s1x := s1 ^^^ s0
  ⟨rotateLeft64 s0 24 ^^^ s1x ^^^ ((s1x <<< 16) % 2 ^ 64), rotateLeft64 s1x 37⟩

def XorShift128p.new1_128 (seed : Nat) : Option XorShift128p :=
  let (a, b) := u128_into_u64_le seed
  XorShift128p.new a b

def XorShift128p.new2_64 (a b : Nat) : Option XorShift128p :=
  XorShift128p.new a b

def XorShift128p.new4_32 (a b c d : Nat) : Option XorShift128p :=
  XorShift128p.new (u64_from_u32_le a b) (u64_from_u32_le c d)

def XorShift128p.new8_16 (a b c d e f g h : Nat) : Option XorShift128p :=
  XorShift128p.new (u64_from_u16_le a b c d) (u64_from_u16_le e f g h)

def XorShift128p.new16_8 (a0 a1 a2 a3 a4 a5 a6 a7 a8 a9 a10 a11 a12 a13 a14 a15 : Nat) :
    Option XorShift128p :=
  XorShift128p.new (u64_from_u8_le a0 a1 a2 a3 a4 a5 a6 a7)
    (u64_from_u8_le a8 a9 a10 a11 a12 a13 a14 a15)

/-! ## Xyza8a and Xyza8b (src/xorshift/xyza8/mod.rs)

In next_u8 the field z is overwritten with the old a before the new a is
computed, so the new a is built from the old a (already-shifted z). -/

structure Xyza8a where
  x : Nat
  y : Nat
  z : Nat
  a : Nat
  deriving DecidableEq

def Xyza8a.new (s0 s1 s2 s3 : Nat) : Xyza8a := ⟨s0, s1, s2, s3⟩

def Xyza8a.default : Xyza8a := Xyza8a.new 0xDE 0xFA 0x00 0x17

def Xyza8a.current_u8 (g : Xyza8a) : Nat := g.a

def Xyza8a.next_u8 (g : Xyza8a) : Nat × Xyza8a :=
  let t := g.x ^^^ ((g.x <<< 4) % 2 ^ 8)
  let x := g.y
  let y := g.z
  let z := g.a
  let a := z ^^^ t ^^^ (z >>> 1) ^^^ ((t <<< 1) % 2 ^ 8)
  (a, ⟨x, y, z, a⟩)

def Xyza8a.next_new (g : Xyza8a) : Xyza8a :=
  let t := g.x ^^^ ((g.x <<< 4) % 2 ^ 8)
  let x := g.y
  let y := g.z
  let z := g.a
  let a := z ^^^ t ^^^ (z >>> 1) ^^^ ((t <<< 1) % 2 ^ 8)
  ⟨x, y, z, a⟩

structure Xyza8b where
  x : Nat
  y : Nat
  z : Nat
  a : Nat
  deriving DecidableEq

def Xyza8b.new (s0 s1 s2 s3 : Nat) : Xyza8b := ⟨s0, s1, s2, s3⟩

def Xyza8b.default : Xyza8b := Xyza8b.new 0xDE 0xFA 0x00 0x17

def Xyza8b.current_u8 (g : Xyza8b) : Nat := g.a

def Xyza8b.next_u8 (g : Xyza8b) : Nat × Xyza8b :=
  let t := g.x ^^^ (g.x >>> 1)
  let x := g.y
  let y := g.z
  let z := g.a
  let a := z ^^^ t ^^^ (z >>> 3) ^^^ ((t <<< 1) % 2 ^ 8)
  (a, ⟨x, y, z, a⟩)

def Xyza8b.next_new (g : Xyza8b) : Xyza8b :=
  let t := g.x ^^^ (g.x >>> 1)
  let x := g.y
  let y := g.z
  let z := g.a
  let a := z ^^^ t ^^^ (z >>> 3) ^^^ ((t <<< 1) % 2 ^ 8)
  ⟨x, y, z, a⟩

/-! ## Mult13P1 (src/misc/mult13p1.rs)

next_u8 uses explicit wrapping additions; next_new uses the plain
addition operator, which wraps in release builds, so every individual
addition below is reduced modulo 2 to the 8. -/

structure Mult13P1 where
  state : Nat
  deriving DecidableEq

def Mult13P1.DEFAULT_SEED : Nat := 0xDE

def Mult13P1.new (seed : Nat) : Mult13P1 := ⟨seed⟩

def Mult13P1.default : Mult13P1 := Mult13P1.new Mult13P1.DEFAULT_SEED

def Mult13P1.current_u8 (g : Mult13P1) : Nat := g.state

def Mult13P1.next_u8 (g : Mult13P1) : Nat × Mult13P1 :=
  let n := g.state
  let n2 := (n <<< 2) % 2 ^ 8
  let n3 := (n <<< 3) % 2 ^ 8
  let s := (((n + n2) % 2 ^ 8 + n3) % 2 ^ 8 + 1) % 2 ^ 8
  (s, ⟨s⟩)

def Mult13P1.next_new (g : Mult13P1) : Mult13P1 :=
  let n := g.state
  let n2 := (n <<< 2) % 2 ^ 8
  let n3 := (n <<< 3) % 2 ^ 8
  ⟨(n + ((n2 + n3) % 2 ^ 8 + 1) % 2 ^ 8) % 2 ^ 8⟩

def Mult13P1.new1_u8 (seed : Nat) : Mult13P1 := Mult13P1.new seed

/-! ## Duplicate definitions from src/xorshift/mod.rs

The crate contains a second, near-identical revision of several
generators directly in the module file; the two compared by the claims
are embedded here under the ModRs prefix. -/

structure ModRs.XorShift8 where
  state : Nat
  deriving DecidableEq

def ModRs.XorShift8.new (seed : Nat) : Option ModRs.XorShift8 :=
  if seed = 0 then none else some ⟨seed⟩

def ModRs.XorShift8.next_u8 (g : ModRs.XorShift8) : Nat × ModRs.XorShift8 :=
  let x0 := g.state
  let x1 := x0 ^^^ ((x0 <<< 3) % 2 ^ 8)
  let x2 := x1 ^^^ (x1 >>> 4)
  let x3 := x2 ^^^ ((x2 <<< 2) % 2 ^ 8)
  (x3, ⟨x3⟩)

structure ModRs.XorShift128p where
  s0 : Nat
  s1 : Nat
  deriving DecidableEq

def ModRs.XorShift128p.new2 (seed1 seed2 : Nat) : Option ModRs.XorShift128p :=
  if (seed1 ||| seed2) ≠ 0 then some ⟨seed1, seed2⟩ else none

def ModRs.XorShift128p.next_64 (g : ModRs.XorShift128p) : Nat × ModRs.XorShift128p :=
  let s1 := g.s0
  let s0 := g.s1
  let result := (s0 + s1) % 2 ^ 64
  let s1x := s1 ^^^ s0
  (result, ⟨rotateLeft64 s0 24 ^^^ s1x ^^^ ((s1x <<< 16) % 2 ^ 64), rotateLeft64 s1x 37⟩)

/-! ## The classic recurrence as written in the spec (section 4.2) -/

/-- One x-xor-shift substep with wrapping left shift, as in the spec. -/
def xorShl (w s x : Nat) : Nat := x ^^^ ((x <<< s) % 2 ^ w)

/-- One x-xor-shift substep with right shift, as in the spec. -/
def xorShr (s x : Nat) : Nat := x ^^^ (x >>> s)

/-- The classic single-word XorShift recurrence exactly as the spec
words it: x xor-shifted left by s1, right by s2, left by s3, all with
wrapping (modulo 2 to the w) shift semantics. -/
def xorshiftSpecStep (w s1 s2 s3 x : Nat) : Nat :=
  xorShl w s3 (xorShr s2 (xorShl w s1 x))

/-! ## Generic bit-level lemmas -/

lemma nat_or_eq_zero_iff (m n : Nat) : m ||| n = 0 ↔ m = 0 ∧ n = 0 := by
  constructor
  · intro h
    have hb : ∀ i, m.testBit i = false ∧ n.testBit i = false := by
      intro i
      have hc := congrArg (fun t => Nat.testBit t i) h
      simpa [Nat.testBit_lor] using hc
    exact ⟨Nat.zero_of_testBit_eq_false fun i => (hb i).1,
      Nat.zero_of_testBit_eq_false fun i => (hb i).2⟩
  · rintro ⟨rfl, rfl⟩
    rfl

/-- A left xor-shift substep of positive shift is zero only at zero. -/
lemma xorShl_eq_zero_imp {w s x : Nat} (hx : x < 2 ^ w) (hs : 1 ≤ s)
    (h : xorShl w s x = 0) : x = 0 := by
  have hx_eq : x = x * 2 ^ s % 2 ^ w := by
    have h2 := Nat.xor_eq_zero.mp h
    rwa [Nat.shiftLeft_eq] at h2
  have key : ∀ j : Nat, 2 ^ min (j * s) w ∣ x := by
    intro j
    induction j with
    | zero => simp
    | succ n ih =>
      have hmin : min ((n + 1) * s) w ≤ min (n * s) w + s := by
        have hstep : (n + 1) * s = n * s + s := Nat.succ_mul n s
        omega
      have hdvd : 2 ^ min ((n + 1) * s) w ∣ x * 2 ^ s :=
        calc 2 ^ min ((n + 1) * s) w ∣ 2 ^ (min (n * s) w + s) := pow_dvd_pow 2 hmin
          _ = 2 ^ min (n * s) w * 2 ^ s := pow_add 2 _ _
          _ ∣ x * 2 ^ s := mul_dvd_mul_right ih (2 ^ s)
      rw [hx_eq]
      exact (Nat.dvd_mod_iff (pow_dvd_pow 2 (min_le_right _ _))).mpr hdvd
  have hW : 2 ^ w ∣ x := by
    have hj := key w
    have hle : w ≤ w * s := by
      have h1 : w * 1 ≤ w * s := Nat.mul_le_mul_left w hs
      omega
    rwa [min_eq_right hle] at hj
  exact Nat.eq_zero_of_dvd_of_lt hW hx

/-- A right xor-shift substep of positive shift is zero only at zero. -/
lemma xorShr_eq_zero_imp {s x : Nat} (hs : 1 ≤ s) (h : xorShr s x = 0) : x = 0 := by
  have hx_eq : x = x / 2 ^ s := by
    have h2 := Nat.xor_eq_zero.mp h
    rwa [Nat.shiftRight_eq_div_pow] at h2
  by_contra hne
  have hlt : x / 2 ^ s < x :=
    Nat.div_lt_self (Nat.pos_of_ne_zero hne) (Nat.one_lt_two_pow_iff.mpr (by omega))
  omega

lemma xorShl_lt {w s x : Nat} (hx : x < 2 ^ w) : xorShl w s x < 2 ^ w :=
  Nat.xor_lt_two_pow hx (Nat.mod_lt _ (pow_pos two_pos w))

lemma xorShr_lt {w s x : Nat} (hx : x < 2 ^ w) : xorShr s x < 2 ^ w := by
  refine Nat.xor_lt_two_pow hx (lt_of_le_of_lt ?_ hx)
  rw [Nat.shiftRight_eq_div_pow]
  exact Nat.div_le_self x (2 ^ s)

/-- The full classic recurrence with positive shifts is zero only at
zero (the all-zero word is its unique preimage of zero). -/
lemma xorshiftSpecStep_eq_zero {w s1 s2 s3 x : Nat} (hx : x < 2 ^ w)
    (h1 : 1 ≤ s1) (h2 : 1 ≤ s2) (h3 : 1 ≤ s3)
    (h : xorshiftSpecStep w s1 s2 s3 x = 0) : x = 0 := by
  unfold xorshiftSpecStep at h
  have hb1 : xorShl w s1 x < 2 ^ w := xorShl_lt hx
  have hb2 : xorShr s2 (xorShl w s1 x) < 2 ^ w := xorShr_lt hb1
  have e2 : xorShr s2 (xorShl w s1 x) = 0 := xorShl_eq_zero_imp hb2 h3 h
  have e1 : xorShl w s1 x = 0 := xorShr_eq_zero_imp h2 e2
  exact xorShl_eq_zero_imp hx h1 e1

/-- A 64-bit left rotation of an in-range word is zero only at zero. -/
lemma rotateLeft64_eq_zero {x n : Nat} (hx : x < 2 ^ 64) (h : rotateLeft64 x n = 0) : x = 0 := by
  unfold rotateLeft64 at h
  obtain ⟨h1, h2⟩ := (nat_or_eq_zero_iff _ _).mp h
  have hd : 2 ^ 64 ∣ x * 2 ^ (n % 64) := by
    rw [Nat.shiftLeft_eq] at h1
    exact Nat.dvd_of_mod_eq_zero h1
  have hd2 : 2 ^ (64 - n % 64) ∣ x := by
    have hsplit : (2 : Nat) ^ 64 = 2 ^ (64 - n % 64) * 2 ^ (n % 64) := by
      rw [← pow_add]
      congr 1
      omega
    rw [hsplit] at hd
    exact (Nat.mul_dvd_mul_iff_right (pow_pos two_pos (n % 64))).mp hd
  have hlt : x < 2 ^ (64 - n % 64) := by
    rw [Nat.shiftRight_eq_div_pow] at h2
    exact (Nat.div_eq_zero_iff (pow_pos two_pos _)).mp h2
  exact Nat.eq_zero_of_dvd_of_lt hd2 hlt

/-! ## Claim theorems -/

/-- Claim C1, counterexample: contrary to the claim, advancing Xyza8a or
Xyza8b from the all-zero state x = y = z = a = 0 produces the all-zero
state again, not a non-zero state: every term of their recurrences is a
shift or XOR of state words and vanishes at zero. -/
theorem C1_counterexample :
    (Xyza8a.next_u8 (Xyza8a.new 0 0 0 0)).2 = Xyza8a.new 0 0 0 0 ∧
    (Xyza8b.next_u8 (Xyza8b.new 0 0 0 0)).2 = Xyza8b.new 0 0 0 0 := by
  exact ⟨by decide, by decide⟩

/-- Claim C1 as amended: only Mult13P1 escapes the all-zero state (its
add-1 term sends state 0 to state 1); for Xyza8a and Xyza8b the all-zero
state is a fixed point of the transition function. -/
theorem C1_zero_state_fixed_points :
    (Mult13P1.next_u8 (Mult13P1.new 0)).2 = Mult13P1.new 1 ∧
    ((Mult13P1.next_u8 (Mult13P1.new 0)).2).state ≠ 0 ∧
    (Xyza8a.next_u8 (Xyza8a.new 0 0 0 0)).2 = Xyza8a.new 0 0 0 0 ∧
    (Xyza8b.next_u8 (Xyza8b.new 0 0 0 0)).2 = Xyza8b.new 0 0 0 0 := by
  exact ⟨by decide, by decide, by decide, by decide⟩

/-- Claim C2: the unchecked constructors return the seed as state
unmodified, but the debug assertions of XorShift8, XorShift32 and
XorShift8Custom are inverted (they assert seed == 0 under the message
Seed must be non-zero), so in a debug build they fire on every non-zero
seed, such as seed 1; only XorShift16 and XorShift64 assert the
documented precondition. -/
theorem C2_unchecked_assert_inverted :
    XorShift8.new_unchecked 1 = ⟨1⟩ ∧
    XorShift8.new_unchecked_assert 1 = false ∧
    XorShift32.new_unchecked 1 = ⟨1⟩ ∧
    XorShift32.new_unchecked_assert 1 = false ∧
    XorShift8Custom.new_unchecked 3 4 2 1 = ⟨1⟩ ∧
    XorShift8Custom.new_unchecked_assert 3 4 2 1 = false ∧
    XorShift16.new_unchecked_assert 1 = true ∧
    XorShift64.new_unchecked_assert 1 = true := by
  exact ⟨rfl, by decide, rfl, by decide, rfl, by decide, by decide, by decide⟩

/-- Claim C9: every default constructor returns the documented fixed
state constant, but for XorShift8, XorShift32 and XorShift8Custom the
inverted debug assertion inside new_unchecked makes the default
constructor panic in debug builds (its assert condition is false), so
it does not succeed in every build configuration. -/
theorem C9_default_constructors :
    XorShift8.default = ⟨0xDE⟩ ∧ XorShift8.default_assert = false ∧
    XorShift32.default = ⟨0xDEFA0017⟩ ∧ XorShift32.default_assert = false ∧
    XorShift8Custom.default = ⟨0xDE⟩ ∧ XorShift8Custom.default_assert = false ∧
    XorShift16.default = ⟨0xDEFA⟩ ∧ XorShift16.default_assert = true ∧
    XorShift64.default = ⟨0xDEFA0017DEFA0017⟩ ∧ XorShift64.default_assert = true ∧
    Mult13P1.default = ⟨0xDE⟩ ∧
    Xyza8a.default = ⟨0xDE, 0xFA, 0x00, 0x17⟩ ∧
    Xyza8b.default = ⟨0xDE, 0xFA, 0x00, 0x17⟩ := by
  refine ⟨rfl, by decide, rfl, by decide, rfl, by decide, rfl, by decide, rfl, by decide,
    rfl, rfl, rfl⟩

/-- Claim C10: the duplicated definitions of XorShift8 (in
xorshift/mod.rs and xorshift/u8.rs) and of XorShift128p (in
xorshift/mod.rs and xorshift/u128.rs) implement identical step
functions: same output and same next state on every state. -/
theorem C10_duplicate_definitions_agree :
    (∀ x : Nat, (ModRs.XorShift8.next_u8 ⟨x⟩).1 = (XorShift8.next_u8 ⟨x⟩).1 ∧
      ((ModRs.XorShift8.next_u8 ⟨x⟩).2).state = ((XorShift8.next_u8 ⟨x⟩).2).state) ∧
    (∀ a b : Nat, (ModRs.XorShift128p.next_64 ⟨a, b⟩).1 = (XorShift128p.next_64 ⟨a, b⟩).1 ∧
      ((ModRs.XorShift128p.next_64 ⟨a, b⟩).2).s0 = ((XorShift128p.next_64 ⟨a, b⟩).2).s0 ∧
      ((ModRs.XorShift128p.next_64 ⟨a, b⟩).2).s1 = ((XorShift128p.next_64 ⟨a, b⟩).2).s1) :=
  ⟨fun _ => ⟨rfl, rfl⟩, fun _ _ => ⟨rfl, rfl, rfl⟩⟩

/-- Claim C4: each classic single-word variant advances by the spec
recurrence with wrapping shift semantics and its documented shift
triple, the post-update word being both the new state and the output;
and the concrete vector: XorShift32 seeded with 1 returns 270369 on the
first advancement. -/
theorem C4_classic_shift_triples :
    (∀ x : Nat, XorShift8.next_u8 ⟨x⟩
      = (xorshiftSpecStep 8 3 4 2 x, ⟨xorshiftSpecStep 8 3 4 2 x⟩)) ∧
    (∀ x : Nat, XorShift16.next_u16 ⟨x⟩
      = (xorshiftSpecStep 16 7 9 8 x, ⟨xorshiftSpecStep 16 7 9 8 x⟩)) ∧
    (∀ x : Nat, XorShift32.next_u32 ⟨x⟩
      = (xorshiftSpecStep 32 13 17 5 x, ⟨xorshiftSpecStep 32 13 17 5 x⟩)) ∧
    (∀ x : Nat, XorShift64.next_u64 ⟨x⟩
      = (xorshiftSpecStep 64 13 7 17 x, ⟨xorshiftSpecStep 64 13 7 17 x⟩)) ∧
    XorShift32.new 1 = some ⟨1⟩ ∧
    (XorShift32.next_u32 ⟨1⟩).1 = 270369 :=
  ⟨fun _ => rfl, fun _ => rfl, fun _ => rfl, fun _ => rfl, rfl, by decide⟩

/-- Claim C8: both Mult13P1 advancement operations compute the state
13n + 1 modulo 256 (equal to n plus n shifted left 2 plus n shifted
left 3 plus 1, every addition wrapping), return it, and agree with each
other; seeded with 1 the first output is 14. -/
theorem C8_mult13p1_step :
    (∀ n : Nat,
      (Mult13P1.next_u8 ⟨n⟩).1 = (13 * n + 1) % 2 ^ 8 ∧
      (Mult13P1.next_u8 ⟨n⟩).2 = ⟨(13 * n + 1) % 2 ^ 8⟩ ∧
      Mult13P1.next_new ⟨n⟩ = ⟨(13 * n + 1) % 2 ^ 8⟩) ∧
    (Mult13P1.next_u8 (Mult13P1.new 1)).1 = 14 := by
  refine ⟨fun n => ?_, by decide⟩
  have hpow2 : (2 : Nat) ^ 2 = 4 := by norm_num
  have hpow3 : (2 : Nat) ^ 3 = 8 := by norm_num
  have hpow8 : (2 : Nat) ^ 8 = 256 := by norm_num
  have hmain : (((n + (n <<< 2) % 2 ^ 8) % 2 ^ 8 + (n <<< 3) % 2 ^ 8) % 2 ^ 8 + 1) % 2 ^ 8
      = (13 * n + 1) % 2 ^ 8 := by
    simp only [Nat.shiftLeft_eq, hpow2, hpow3, hpow8]
    omega
  have hnew : (n + (((n <<< 2) % 2 ^ 8 + (n <<< 3) % 2 ^ 8) % 2 ^ 8 + 1) % 2 ^ 8) % 2 ^ 8
      = (13 * n + 1) % 2 ^ 8 := by
    simp only [Nat.shiftLeft_eq, hpow2, hpow3, hpow8]
    omega
  refine ⟨hmain, ?_, ?_⟩
  · show Mult13P1.mk ((((n + (n <<< 2) % 2 ^ 8) % 2 ^ 8 + (n <<< 3) % 2 ^ 8) % 2 ^ 8 + 1) % 2 ^ 8)
      = Mult13P1.mk ((13 * n + 1) % 2 ^ 8)
    rw [hmain]
  · show Mult13P1.mk ((n + (((n <<< 2) % 2 ^ 8 + (n <<< 3) % 2 ^ 8) % 2 ^ 8 + 1) % 2 ^ 8) % 2 ^ 8)
      = Mult13P1.mk ((13 * n + 1) % 2 ^ 8)
    rw [hnew]

/-- Claim C7: for every variant offering both advancement modes, the
pure peek operation next_new returns exactly the state that the
mutating next operation installs; in this embedding next_new is a pure
function of the receiver, which is left untouched. -/
theorem C7_peek_advance_equivalence :
    (∀ g : XorShift8, XorShift8.next_new g = (XorShift8.next_u8 g).2) ∧
    (∀ sh1 sh2 sh3 : Nat, ∀ g : XorShift8Custom,
      XorShift8Custom.next_new sh1 sh2 sh3 g = (XorShift8Custom.next_u8 sh1 sh2 sh3 g).2) ∧
    (∀ g : XorShift16, XorShift16.next_new g = (XorShift16.next_u16 g).2) ∧
    (∀ g : XorShift32, XorShift32.next_new g = (XorShift32.next_u32 g).2) ∧
    (∀ g : XorShift64, XorShift64.next_new g = (XorShift64.next_u64 g).2) ∧
    (∀ g : XorShift128, XorShift128.next_new g = (XorShift128.next_u64 g).2) ∧
    (∀ g : XorShift128p, XorShift128p.next_new g = (XorShift128p.next_64 g).2) ∧
    (∀ g : Xyza8a, Xyza8a.next_new g = (Xyza8a.next_u8 g).2) ∧
    (∀ g : Xyza8b, Xyza8b.next_new g = (Xyza8b.next_u8 g).2) ∧
    (∀ g : Mult13P1, Mult13P1.next_new g = (Mult13P1.next_u8 g).2) := by
  refine ⟨fun _ => rfl, fun _ _ _ _ => rfl, fun _ => rfl, fun _ => rfl, fun _ => rfl,
    fun _ => rfl, fun _ => rfl, fun _ => rfl, fun _ => rfl, fun g => ?_⟩
  cases g with
  | mk n =>
    show Mult13P1.mk ((n + (((n <<< 2) % 2 ^ 8 + (n <<< 3) % 2 ^ 8) % 2 ^ 8 + 1) % 2 ^ 8) % 2 ^ 8)
      = Mult13P1.mk ((((n + (n <<< 2) % 2 ^ 8) % 2 ^ 8 + (n <<< 3) % 2 ^ 8) % 2 ^ 8 + 1) % 2 ^ 8)
    congr 1
    simp only [Nat.shiftLeft_eq, show (2 : Nat) ^ 2 = 4 by norm_num,
      show (2 : Nat) ^ 3 = 8 by norm_num, show (2 : Nat) ^ 8 = 256 by norm_num]
    omega

/-- Claim C3: the XorShift128p advancement returns the wrapping sum of
the two state words as they were before the update; at the state with
both words 2 to the 63 the sum overflows to 0, while the corresponding
post-update sum is non-zero, so the output is not derivable from the
post-update state. -/
theorem C3_output_is_pre_update_sum :
    (∀ g : XorShift128p, (XorShift128p.next_64 g).1 = (g.s0 + g.s1) % 2 ^ 64) ∧
    (XorShift128p.next_64 ⟨2 ^ 63, 2 ^ 63⟩).1 = 0 ∧
    (((XorShift128p.next_64 ⟨2 ^ 63, 2 ^ 63⟩).2).s0 + ((XorShift128p.next_64 ⟨2 ^ 63, 2 ^ 63⟩).2).s1)
      % 2 ^ 64 ≠ 0 := by
  refine ⟨fun g => ?_, ?_, ?_⟩
  · show (g.s1 + g.s0) % 2 ^ 64 = (g.s0 + g.s1) % 2 ^ 64
    rw [Nat.add_comm]
  · show (2 ^ 63 + 2 ^ 63) % 2 ^ 64 = 0
    norm_num
  · show (rotateLeft64 (2 ^ 63) 24 ^^^ (2 ^ 63 ^^^ 2 ^ 63) ^^^ (((2 ^ 63 ^^^ 2 ^ 63) <<< 16) % 2 ^ 64)
        + rotateLeft64 (2 ^ 63 ^^^ 2 ^ 63) 37) % 2 ^ 64 ≠ 0
    simp only [Nat.xor_self, Nat.zero_shiftLeft, Nat.zero_mod, Nat.xor_zero, rotateLeft64,
      Nat.shiftLeft_eq, Nat.shiftRight_eq_div_pow, Nat.zero_mul, Nat.zero_div, Nat.zero_or,
      Nat.or_zero]
    norm_num

/-- Claim C6: for every forbidden-zero variant, one advancement step
from a non-zero (in-range) state never produces the all-zero state:
each xor-shift substep, and the 64-bit rotation, map only zero to
zero. -/
theorem C6_fixed_point_avoidance :
    (∀ x : Nat, x < 2 ^ 8 → x ≠ 0 → ((XorShift8.next_u8 ⟨x⟩).2).state ≠ 0) ∧
    (∀ x : Nat, x < 2 ^ 16 → x ≠ 0 → ((XorShift16.next_u16 ⟨x⟩).2).state ≠ 0) ∧
    (∀ x : Nat, x < 2 ^ 32 → x ≠ 0 → ((XorShift32.next_u32 ⟨x⟩).2).state ≠ 0) ∧
    (∀ x : Nat, x < 2 ^ 64 → x ≠ 0 → ((XorShift64.next_u64 ⟨x⟩).2).state ≠ 0) ∧
    (∀ a b c d : Nat, a < 2 ^ 32 → b < 2 ^ 32 → c < 2 ^ 32 → d < 2 ^ 32 →
      ¬(a = 0 ∧ b = 0 ∧ c = 0 ∧ d = 0) →
      (XorShift128.next_u64 ⟨a, b, c, d⟩).2 ≠ ⟨0, 0, 0, 0⟩) ∧
    (∀ a b : Nat, a < 2 ^ 64 → b < 2 ^ 64 → ¬(a = 0 ∧ b = 0) →
      (XorShift128p.next_64 ⟨a, b⟩).2 ≠ ⟨0, 0⟩) := by
  refine ⟨?_, ?_, ?_, ?_, ?_, ?_⟩
  · intro x hx hne h0
    exact hne (xorshiftSpecStep_eq_zero hx (by omega) (by omega) (by omega) h0)
  · intro x hx hne h0
    exact hne (xorshiftSpecStep_eq_zero hx (by omega) (by omega) (by omega) h0)
  · intro x hx hne h0
    exact hne (xorshiftSpecStep_eq_zero hx (by omega) (by omega) (by omega) h0)
  · intro x hx hne h0
    exact hne (xorshiftSpecStep_eq_zero hx (by omega) (by omega) (by omega) h0)
  · intro a b c d ha hb hc hd hne h0
    have ha0 : a = 0 := congrArg XorShift128.s1 h0
    have hb0 : b = 0 := congrArg XorShift128.s2 h0
    have hc0 : c = 0 := congrArg XorShift128.s3 h0
    have hs0 : ((XorShift128.next_u64 ⟨a, b, c, d⟩).2).s0 = 0 := congrArg XorShift128.s0 h0
    subst ha0
    subst hb0
    subst hc0
    have hd0 : d = 0 := by
      refine xorShr_eq_zero_imp (s := 19) (by omega) ?_
      have hred : d ^^^ (d >>> 19) = 0 := by
        simpa [XorShift128.next_u64, Nat.zero_shiftLeft, Nat.zero_shiftRight] using hs0
      simpa [xorShr] using hred
    exact hne ⟨rfl, rfl, rfl, hd0⟩
  · intro a b ha hb hne h0
    have h1 : rotateLeft64 (a ^^^ b) 37 = 0 := congrArg XorShift128p.s1 h0
    have hab : a ^^^ b = 0 := rotateLeft64_eq_zero (Nat.xor_lt_two_pow ha hb) h1
    have habe : a = b := Nat.xor_eq_zero.mp hab
    have h2 : rotateLeft64 b 24 ^^^ (a ^^^ b) ^^^ (((a ^^^ b) <<< 16) % 2 ^ 64) = 0 :=
      congrArg XorShift128p.s0 h0
    rw [hab] at h2
    simp only [Nat.zero_shiftLeft, Nat.zero_mod, Nat.xor_zero] at h2
    have hb0 : b = 0 := rotateLeft64_eq_zero hb h2
    exact hne ⟨habe.trans hb0, hb0⟩

/-- Witness for claim C6 at the concrete non-zero state 1 of
XorShift8. -/
theorem C6_fixed_point_avoidance_witness :
    ((XorShift8.next_u8 ⟨1⟩).2).state ≠ 0 :=
  C6_fixed_point_avoidance.1 1 (by norm_num) (by norm_num)

/-! ## Helpers for the seed-rejection claim -/

lemma option_if_spec {α : Type} (c : Nat) (v : α) (P : Prop) (hP : c = 0 ↔ P) :
    ((if c = 0 then (none : Option α) else some v) = none ↔ P) ∧
    (¬P → (if c = 0 then (none : Option α) else some v) = some v) := by
  refine ⟨?_, fun hnp => ?_⟩
  · by_cases h : c = 0
    · rw [if_pos h]
      exact ⟨fun _ => hP.mp h, fun _ => rfl⟩
    · rw [if_neg h]
      exact ⟨fun hc => absurd hc (Option.some_ne_none v), fun hp => absurd (hP.mpr hp) h⟩
  · rw [if_neg fun hc => hnp (hP.mp hc)]

lemma option_ifne_spec {α : Type} (c : Nat) (v : α) (P : Prop) (hP : c = 0 ↔ P) :
    ((if c ≠ 0 then some v else (none : Option α)) = none ↔ P) ∧
    (¬P → (if c ≠ 0 then some v else (none : Option α)) = some v) := by
  refine ⟨?_, fun hnp => ?_⟩
  · by_cases h : c = 0
    · rw [if_neg fun hcc => hcc h]
      exact ⟨fun _ => hP.mp h, fun _ => rfl⟩
    · rw [if_pos h]
      exact ⟨fun hc => absurd hc (Option.some_ne_none v), fun hp => absurd (hP.mpr hp) h⟩
  · rw [if_pos fun hc => hnp (hP.mp hc)]

lemma or2_eq_zero_iff (a b : Nat) : (a ||| b) = 0 ↔ a = 0 ∧ b = 0 :=
  nat_or_eq_zero_iff a b

lemma or4_eq_zero_iff (a b c d : Nat) :
    (a ||| b ||| c ||| d) = 0 ↔ a = 0 ∧ b = 0 ∧ c = 0 ∧ d = 0 := by
  simp [nat_or_eq_zero_iff, and_assoc]

lemma u16_from_u8_le_eq_zero (a b : Nat) : u16_from_u8_le a b = 0 ↔ a = 0 ∧ b = 0 := by
  unfold u16_from_u8_le
  simp only [Nat.shiftLeft_eq, show (2 : Nat) ^ 8 = 256 by norm_num]
  omega

lemma u32_from_u16_le_eq_zero (a b : Nat) : u32_from_u16_le a b = 0 ↔ a = 0 ∧ b = 0 := by
  unfold u32_from_u16_le
  simp only [Nat.shiftLeft_eq, show (2 : Nat) ^ 16 = 65536 by norm_num]
  omega

lemma u32_from_u8_le_eq_zero (a b c d : Nat) :
    u32_from_u8_le a b c d = 0 ↔ a = 0 ∧ b = 0 ∧ c = 0 ∧ d = 0 := by
  unfold u32_from_u8_le
  simp only [Nat.shiftLeft_eq, show (2 : Nat) ^ 8 = 256 by norm_num,
    show (2 : Nat) ^ 16 = 65536 by norm_num, show (2 : Nat) ^ 24 = 16777216 by norm_num]
  omega

lemma u64_from_u32_le_eq_zero (a b : Nat) : u64_from_u32_le a b = 0 ↔ a = 0 ∧ b = 0 := by
  unfold u64_from_u32_le
  simp only [Nat.shiftLeft_eq, show (2 : Nat) ^ 32 = 4294967296 by norm_num]
  omega

lemma u64_from_u16_le_eq_zero (a b c d : Nat) :
    u64_from_u16_le a b c d = 0 ↔ a = 0 ∧ b = 0 ∧ c = 0 ∧ d = 0 := by
  unfold u64_from_u16_le
  simp only [Nat.shiftLeft_eq, show (2 : Nat) ^ 16 = 65536 by norm_num,
    show (2 : Nat) ^ 32 = 4294967296 by norm_num,
    show (2 : Nat) ^ 48 = 281474976710656 by norm_num]
  omega

lemma u64_from_u8_le_eq_zero (a b c d e f g h : Nat) :
    u64_from_u8_le a b c d e f g h = 0 ↔
      a = 0 ∧ b = 0 ∧ c = 0 ∧ d = 0 ∧ e = 0 ∧ f = 0 ∧ g = 0 ∧ h = 0 := by
  unfold u64_from_u8_le
  simp only [Nat.shiftLeft_eq, show (2 : Nat) ^ 8 = 256 by norm_num,
    show (2 : Nat) ^ 16 = 65536 by norm_num, show (2 : Nat) ^ 24 = 16777216 by norm_num,
    show (2 : Nat) ^ 32 = 4294967296 by norm_num,
    show (2 : Nat) ^ 40 = 1099511627776 by norm_num,
    show (2 : Nat) ^ 48 = 281474976710656 by norm_num,
    show (2 : Nat) ^ 56 = 72057594037927936 by norm_num]
  omega

/-- Claim C5: every checked constructor of a forbidden-zero variant
returns none exactly when the (little-endian composed) seed is all-zero
bits, and otherwise succeeds with the composed seed installed as the
state unmodified; this covers the native-width constructors and every
2, 4, 8 or 16 sub-word constructor. -/
theorem C5_zero_seed_rejection :
    (∀ s : Nat, (XorShift8.new s = none ↔ s = 0) ∧
      (s ≠ 0 → XorShift8.new s = some ⟨s⟩)) ∧
    (∀ t1 t2 t3 s : Nat, (XorShift8Custom.new t1 t2 t3 s = none ↔ s = 0) ∧
      (s ≠ 0 → XorShift8Custom.new t1 t2 t3 s = some ⟨s⟩)) ∧
    (∀ s : Nat, (XorShift16.new s = none ↔ s = 0) ∧
      (s ≠ 0 → XorShift16.new s = some ⟨s⟩)) ∧
    (∀ s : Nat, (XorShift32.new s = none ↔ s = 0) ∧
      (s ≠ 0 → XorShift32.new s = some ⟨s⟩)) ∧
    (∀ s : Nat, (XorShift64.new s = none ↔ s = 0) ∧
      (s ≠ 0 → XorShift64.new s = some ⟨s⟩)) ∧
    (∀ a b c d : Nat, (XorShift128.new a b c d = none ↔ a = 0 ∧ b = 0 ∧ c = 0 ∧ d = 0) ∧
      (¬(a = 0 ∧ b = 0 ∧ c = 0 ∧ d = 0) → XorShift128.new a b c d = some ⟨a, b, c, d⟩)) ∧
    (∀ a b : Nat, (XorShift128p.new a b = none ↔ a = 0 ∧ b = 0) ∧
      (¬(a = 0 ∧ b = 0) → XorShift128p.new a b = some ⟨a, b⟩)) ∧
    (∀ a b : Nat, (XorShift16.new2_u8 a b = none ↔ a = 0 ∧ b = 0) ∧
      (¬(a = 0 ∧ b = 0) → XorShift16.new2_u8 a b = some ⟨u16_from_u8_le a b⟩)) ∧
    (∀ a b : Nat, (XorShift32.new2_16 a b = none ↔ a = 0 ∧ b = 0) ∧
      (¬(a = 0 ∧ b = 0) → XorShift32.new2_16 a b = some ⟨u32_from_u16_le a b⟩)) ∧
    (∀ a b c d : Nat, (XorShift32.new4_8 a b c d = none ↔ a = 0 ∧ b = 0 ∧ c = 0 ∧ d = 0) ∧
      (¬(a = 0 ∧ b = 0 ∧ c = 0 ∧ d = 0) →
        XorShift32.new4_8 a b c d = some ⟨u32_from_u8_le a b c d⟩)) ∧
    (∀ a b : Nat, (XorShift64.new2_u32 a b = none ↔ a = 0 ∧ b = 0) ∧
      (¬(a = 0 ∧ b = 0) → XorShift64.new2_u32 a b = some ⟨u64_from_u32_le a b⟩)) ∧
    (∀ a b c d : Nat, (XorShift64.new4_u16 a b c d = none ↔ a = 0 ∧ b = 0 ∧ c = 0 ∧ d = 0) ∧
      (¬(a = 0 ∧ b = 0 ∧ c = 0 ∧ d = 0) →
        XorShift64.new4_u16 a b c d = some ⟨u64_from_u16_le a b c d⟩)) ∧
    (∀ a b c d e f g h : Nat,
      (XorShift64.new8_u8 a b c d e f g h = none ↔
        a = 0 ∧ b = 0 ∧ c = 0 ∧ d = 0 ∧ e = 0 ∧ f = 0 ∧ g = 0 ∧ h = 0) ∧
      (¬(a = 0 ∧ b = 0 ∧ c = 0 ∧ d = 0 ∧ e = 0 ∧ f = 0 ∧ g = 0 ∧ h = 0) →
        XorShift64.new8_u8 a b c d e f g h = some ⟨u64_from_u8_le a b c d e f g h⟩)) ∧
    (∀ a b : Nat, a < 2 ^ 64 → b < 2 ^ 64 →
      (XorShift128.new2_64 a b = none ↔ a = 0 ∧ b = 0) ∧
      (¬(a = 0 ∧ b = 0) → XorShift128.new2_64 a b
        = some ⟨a % 2 ^ 32, (a >>> 32) % 2 ^ 32, b % 2 ^ 32, (b >>> 32) % 2 ^ 32⟩)) ∧
    (∀ a b c d e f g h : Nat,
      (XorShift128.new8_16 a b c d e f g h = none ↔
        a = 0 ∧ b = 0 ∧ c = 0 ∧ d = 0 ∧ e = 0 ∧ f = 0 ∧ g = 0 ∧ h = 0) ∧
      (¬(a = 0 ∧ b = 0 ∧ c = 0 ∧ d = 0 ∧ e = 0 ∧ f = 0 ∧ g = 0 ∧ h = 0) →
        XorShift128.new8_16 a b c d e f g h
          = some ⟨u32_from_u16_le a b, u32_from_u16_le c d,
              u32_from_u16_le e f, u32_from_u16_le g h⟩)) ∧
    (∀ a0 a1 a2 a3 a4 a5 a6 a7 a8 a9 a10 a11 a12 a13 a14 a15 : Nat,
      (XorShift128.new16_8 a0 a1 a2 a3 a4 a5 a6 a7 a8 a9 a10 a11 a12 a13 a14 a15 = none ↔
        a0 = 0 ∧ a1 = 0 ∧ a2 = 0 ∧ a3 = 0 ∧ a4 = 0 ∧ a5 = 0 ∧ a6 = 0 ∧ a7 = 0 ∧
        a8 = 0 ∧ a9 = 0 ∧ a10 = 0 ∧ a11 = 0 ∧ a12 = 0 ∧ a13 = 0 ∧ a14 = 0 ∧ a15 = 0) ∧
      (¬(a0 = 0 ∧ a1 = 0 ∧ a2 = 0 ∧ a3 = 0 ∧ a4 = 0 ∧ a5 = 0 ∧ a6 = 0 ∧ a7 = 0 ∧
          a8 = 0 ∧ a9 = 0 ∧ a10 = 0 ∧ a11 = 0 ∧ a12 = 0 ∧ a13 = 0 ∧ a14 = 0 ∧ a15 = 0) →
        XorShift128.new16_8 a0 a1 a2 a3 a4 a5 a6 a7 a8 a9 a10 a11 a12 a13 a14 a15
          = some ⟨u32_from_u8_le a0 a1 a2 a3, u32_from_u8_le a4 a5 a6 a7,
              u32_from_u8_le a8 a9 a10 a11, u32_from_u8_le a12 a13 a14 a15⟩)) ∧
    (∀ a b c d : Nat, (XorShift128p.new4_32 a b c d = none ↔ a = 0 ∧ b = 0 ∧ c = 0 ∧ d = 0) ∧
      (¬(a = 0 ∧ b = 0 ∧ c = 0 ∧ d = 0) →
        XorShift128p.new4_32 a b c d = some ⟨u64_from_u32_le a b, u64_from_u32_le c d⟩)) ∧
    (∀ a b c d e f g h : Nat,
      (XorShift128p.new8_16 a b c d e f g h = none ↔
        a = 0 ∧ b = 0 ∧ c = 0 ∧ d = 0 ∧ e = 0 ∧ f = 0 ∧ g = 0 ∧ h = 0) ∧
      (¬(a = 0 ∧ b = 0 ∧ c = 0 ∧ d = 0 ∧ e = 0 ∧ f = 0 ∧ g = 0 ∧ h = 0) →
        XorShift128p.new8_16 a b c d e f g h
          = some ⟨u64_from_u16_le a b c d, u64_from_u16_le e f g h⟩)) ∧
    (∀ a0 a1 a2 a3 a4 a5 a6 a7 a8 a9 a10 a11 a12 a13 a14 a15 : Nat,
      (XorShift128p.new16_8 a0 a1 a2 a3 a4 a5 a6 a7 a8 a9 a10 a11 a12 a13 a14 a15 = none ↔
        a0 = 0 ∧ a1 = 0 ∧ a2 = 0 ∧ a3 = 0 ∧ a4 = 0 ∧ a5 = 0 ∧ a6 = 0 ∧ a7 = 0 ∧
        a8 = 0 ∧ a9 = 0 ∧ a10 = 0 ∧ a11 = 0 ∧ a12 = 0 ∧ a13 = 0 ∧ a14 = 0 ∧ a15 = 0) ∧
      (¬(a0 = 0 ∧ a1 = 0 ∧ a2 = 0 ∧ a3 = 0 ∧ a4 = 0 ∧ a5 = 0 ∧ a6 = 0 ∧ a7 = 0 ∧
          a8 = 0 ∧ a9 = 0 ∧ a10 = 0 ∧ a11 = 0 ∧ a12 = 0 ∧ a13 = 0 ∧ a14 = 0 ∧ a15 = 0) →
        XorShift128p.new16_8 a0 a1 a2 a3 a4 a5 a6 a7 a8 a9 a10 a11 a12 a13 a14 a15
          = some ⟨u64_from_u8_le a0 a1 a2 a3 a4 a5 a6 a7,
              u64_from_u8_le a8 a9 a10 a11 a12 a13 a14 a15⟩)) := by
  refine ⟨?_, ?_, ?_, ?_, ?_, ?_, ?_, ?_, ?_, ?_, ?_, ?_, ?_, ?_, ?_, ?_, ?_, ?_, ?_⟩
  · intro s
    unfold XorShift8.new
    exact option_if_spec s _ (s = 0) Iff.rfl
  · intro t1 t2 t3 s
    unfold XorShift8Custom.new
    exact option_if_spec s _ (s = 0) Iff.rfl
  · intro s
    unfold XorShift16.new
    exact option_if_spec s _ (s = 0) Iff.rfl
  · intro s
    unfold XorShift32.new
    exact option_if_spec s _ (s = 0) Iff.rfl
  · intro s
    unfold XorShift64.new
    exact option_if_spec s _ (s = 0) Iff.rfl
  · intro a b c d
    unfold XorShift128.new
    exact option_ifne_spec _ _ _ (or4_eq_zero_iff a b c d)
  · intro a b
    unfold XorShift128p.new
    exact option_ifne_spec _ _ _ (or2_eq_zero_iff a b)
  · intro a b
    unfold XorShift16.new2_u8 XorShift16.new
    exact option_if_spec _ _ _ (u16_from_u8_le_eq_zero a b)
  · intro a b
    unfold XorShift32.new2_16 XorShift32.new
    exact option_if_spec _ _ _ (u32_from_u16_le_eq_zero a b)
  · intro a b c d
    unfold XorShift32.new4_8 XorShift32.new
    exact option_if_spec _ _ _ (u32_from_u8_le_eq_zero a b c d)
  · intro a b
    unfold XorShift64.new2_u32 XorShift64.new
    exact option_if_spec _ _ _ (u64_from_u32_le_eq_zero a b)
  · intro a b c d
    unfold XorShift64.new4_u16 XorShift64.new
    exact option_if_spec _ _ _ (u64_from_u16_le_eq_zero a b c d)
  · intro a b c d e f g h
    unfold XorShift64.new8_u8 XorShift64.new
    exact option_if_spec _ _ _ (u64_from_u8_le_eq_zero a b c d e f g h)
  · intro a b ha hb
    have h64 : (2 : Nat) ^ 64 = 18446744073709551616 := by norm_num
    rw [h64] at ha hb
    unfold XorShift128.new2_64 u64_into_u32_le XorShift128.new
    refine option_ifne_spec _ _ _ ?_
    rw [or4_eq_zero_iff, Nat.shiftRight_eq_div_pow, Nat.shiftRight_eq_div_pow]
    simp only [show (2 : Nat) ^ 32 = 4294967296 by norm_num]
    omega
  · intro a b c d e f g h
    unfold XorShift128.new8_16 XorShift128.new
    refine option_ifne_spec _ _ _ ?_
    simp [or4_eq_zero_iff, u32_from_u16_le_eq_zero, and_assoc]
  · intro a0 a1 a2 a3 a4 a5 a6 a7 a8 a9 a10 a11 a12 a13 a14 a15
    unfold XorShift128.new16_8 XorShift128.new
    refine option_ifne_spec _ _ _ ?_
    simp [or4_eq_zero_iff, u32_from_u8_le_eq_zero, and_assoc]
  · intro a b c d
    unfold XorShift128p.new4_32 XorShift128p.new
    refine option_ifne_spec _ _ _ ?_
    simp [or2_eq_zero_iff, u64_from_u32_le_eq_zero, and_assoc]
  · intro a b c d e f g h
    unfold XorShift128p.new8_16 XorShift128p.new
    refine option_ifne_spec _ _ _ ?_
    simp [or2_eq_zero_iff, u64_from_u16_le_eq_zero, and_assoc]
  · intro a0 a1 a2 a3 a4 a5 a6 a7 a8 a9 a10 a11 a12 a13 a14 a15
    unfold XorShift128p.new16_8 XorShift128p.new
    refine option_ifne_spec _ _ _ ?_
    simp [or2_eq_zero_iff, u64_from_u8_le_eq_zero, and_assoc]

/-- Witness for claim C5 at the concrete non-zero seed 5 of
XorShift8. -/
theorem C5_zero_seed_rejection_witness : XorShift8.new 5 = some ⟨5⟩ :=
  (C5_zero_seed_rejection.1 5).2 (by norm_num)
